import Mathlib

/-!
Verification of the TD3 and BCQ agents of `gym_forestfire/agents/td3.py` and
`gym_forestfire/agents/bcq.py`.

The networks are embedded over `ℝ` with tensors as lists of reals, in the
non-image configuration (`image_obs = False`, `cnn = False`, the constructor
defaults), so every `fcn` feature extractor is the `nn.Linear` + `ReLU` branch
of the source.  Gradient computation and the Adam optimizer are supplied by
the external framework (torch); each optimizer update is therefore modelled
as an unspecified function packed in an oracle structure.  Everything the
source computes outside of `backward` and `step` (forward passes, losses,
targets, the Polyak
copies, the control flow and the file I/O) is translated directly.
-/

namespace Wildfire

/-- Tensor row: a vector of reals. -/
abbrev Vec := List ℝ

/-- The scalar clamp `torch.clamp(x, lo, hi)` = `min (max x lo) hi`. -/
noncomputable def clampS (lo hi x : ℝ) : ℝ := min (max x lo) hi

/-- Elementwise clamp of a vector. -/
noncomputable def clampV (lo hi : ℝ) (v : Vec) : Vec := v.map (clampS lo hi)

/-- Elementwise `ReLU`. -/
noncomputable def reluV (v : Vec) : Vec := v.map (fun x => max x 0)

/-- Dot product of two vectors. -/
noncomputable def dot (a b : Vec) : ℝ := (List.zipWith (· * ·) a b).sum

/-- An `nn.Linear(in_features, out_features)` layer: a weight matrix (one row
per output feature) and a bias vector. -/
structure Linear where
  w : List Vec
  b : Vec

/-- Application of a linear layer: `W x + b`. -/
noncomputable def Linear.apply (l : Linear) (x : Vec) : Vec :=
  List.zipWith (· + ·) (l.w.map (fun row => dot row x)) l.b

/-- An `nn.Linear(n, 1)` layer with its single output row, as used for the
critic heads `l2` and `l4`. -/
structure LinearR where
  w : Vec
  b : ℝ

/-- Application of a single-output linear layer. -/
noncomputable def LinearR.apply (l : LinearR) (x : Vec) : ℝ := dot l.w x + l.b

/-- Mean of a list of reals (`tensor.mean()`). -/
noncomputable def meanL (l : List ℝ) : ℝ := l.sum / l.length

/-- `F.mse_loss(x, y)`: mean of the squared componentwise differences. -/
noncomputable def mse (x y : List ℝ) : ℝ :=
  meanL (List.zipWith (fun a b => (a - b) ^ 2) x y)

/-- Adam optimizer state, opaque to this development. -/
abbrev OptSt := List ℝ

/-! ### The `Actor` network (identical class in td3.py and bcq.py)

`Actor.__init__` (non-image branch): `fcn = Sequential(Linear(state_dim, 256),
ReLU())`, then `l1 = Linear(256, 256)`, `l2 = Linear(256, action_dim)`, and
the python attribute `max_action`. -/

structure Actor where
  fcn : Linear
  l1 : Linear
  l2 : Linear
  max_action : ℝ

/-- `Actor.forward(state)`: `state = fcn(state)`, `a = relu(l1(state))`,
return `max_action * tanh(l2(a))`. -/
noncomputable def Actor.forward (a : Actor) (state : Vec) : Vec :=
  let s := reluV (a.fcn.apply state)
  let h := reluV (a.l1.apply s)
  (a.l2.apply h).map (fun x => a.max_action * Real.tanh x)

/-! ### The `Critic` network (identical class in td3.py and bcq.py)

Non-image branch: `fcn_1`, `fcn_2` are `Sequential(Linear(state_dim +
action_dim, 256), ReLU())`; heads `l1 = Linear(256, 256)`, `l2 =
Linear(256, 1)`, `l3 = Linear(256, 256)`, `l4 = Linear(256, 1)`. -/

structure Critic where
  fcn_1 : Linear
  fcn_2 : Linear
  l1 : Linear
  l2 : LinearR
  l3 : Linear
  l4 : LinearR

/-- `Critic.forward(state, action)`: concatenate, run both Q pipelines and
return the pair `(q1, q2)` (each a single value per row). -/
noncomputable def Critic.forward (c : Critic) (state action : Vec) : ℝ × ℝ :=
  let sa := state ++ action
  let q1 := c.l2.apply (reluV (c.l1.apply (reluV (c.fcn_1.apply sa))))
  let q2 := c.l4.apply (reluV (c.l3.apply (reluV (c.fcn_2.apply sa))))
  (q1, q2)

/-- `Critic.Q1(state, action)`: the first pipeline only. -/
noncomputable def Critic.Q1 (c : Critic) (state action : Vec) : ℝ :=
  let sa := state ++ action
  c.l2.apply (reluV (c.l1.apply (reluV (c.fcn_1.apply sa))))

/-- Bound predicate: every component of the vector lies in `[-m, m]`. -/
def BddWithin (m : ℝ) (l : Vec) : Prop := ∀ x ∈ l, -m ≤ x ∧ x ≤ m

/-! ### The `VAE` network (bcq.py only)

Encoder `e1 : Linear(state_dim + action_dim, 750)`, `e2 : Linear(750, 750)`,
heads `mean`, `log_std : Linear(750, latent_dim)`; decoder `d1 :
Linear(state_dim + latent_dim, 750)`, `d2 : Linear(750, 750)`, `d3 :
Linear(750, action_dim)`; python attributes `max_action`, `latent_dim`. -/

structure VAE where
  e1 : Linear
  e2 : Linear
  mean : Linear
  log_std : Linear
  d1 : Linear
  d2 : Linear
  d3 : Linear
  max_action : ℝ
  latent_dim : ℕ

/-- `VAE.decode(state, z)` with an explicit latent vector: `a =
relu(d1(cat(state, z)))`, `a = relu(d2(a))`, return `max_action *
tanh(d3(a))`. -/
noncomputable def VAE.decode (v : VAE) (state z : Vec) : Vec :=
  let a := reluV (v.d1.apply (state ++ z))
  let a2 := reluV (v.d2.apply a)
  (v.d3.apply a2).map (fun x => v.max_action * Real.tanh x)

/-- `VAE.decode(state)` with `z = None`: the latent vector is a standard
normal draw (`zr`, supplied externally) clipped to `[-0.5, 0.5]`. -/
noncomputable def VAE.decodeSampled (v : VAE) (state zr : Vec) : Vec :=
  v.decode state (clampV (-(1 / 2)) (1 / 2) zr)

/-- `VAE.forward(state, action)` with the reparameterization draw `eps`
supplied externally: encode, clamp `log_std` to `[-4, 15]`, sample
`z = mean + std * eps`, decode, and return `(u, mean, std)`. -/
noncomputable def VAE.forward (v : VAE) (state action eps : Vec) : Vec × Vec × Vec :=
  let z1 := reluV (v.e1.apply (state ++ action))
  let z2 := reluV (v.e2.apply z1)
  let mean := v.mean.apply z2
  let log_std := (v.log_std.apply z2).map (clampS (-4) 15)
  let std := log_std.map Real.exp
  let z := List.zipWith (· + ·) mean (List.zipWith (· * ·) std eps)
  (v.decode state z, mean, std)

/-! ### Polyak (soft target) updates

`target_param.data.copy_(tau * param.data + (1 - tau) * target_param.data)`
iterated over `zip(net.parameters(), target_net.parameters())`.  The update
is defined structurally per layer; the `parameters`-level pairing statement
is proved as a theorem. -/

/-- Polyak combination of two equally-shaped vectors. -/
noncomputable def polyakV (tau : ℝ) (p tp : Vec) : Vec :=
  List.zipWith (fun x y => tau * x + (1 - tau) * y) p tp

/-- Polyak combination of two equally-shaped matrices. -/
noncomputable def polyakM (tau : ℝ) (p tp : List Vec) : List Vec :=
  List.zipWith (polyakV tau) p tp

/-- Polyak update of a linear layer. -/
noncomputable def Linear.polyak (tau : ℝ) (l t : Linear) : Linear :=
  ⟨polyakM tau l.w t.w, polyakV tau l.b t.b⟩

/-- Polyak update of a single-output linear layer. -/
noncomputable def LinearR.polyak (tau : ℝ) (l t : LinearR) : LinearR :=
  ⟨polyakV tau l.w t.w, tau * l.b + (1 - tau) * t.b⟩

/-- Polyak update of the actor's parameters; the non-parameter attribute
`max_action` of the target module is untouched by `copy_`. -/
noncomputable def Actor.polyak (tau : ℝ) (a t : Actor) : Actor :=
  ⟨Linear.polyak tau a.fcn t.fcn, Linear.polyak tau a.l1 t.l1,
   Linear.polyak tau a.l2 t.l2, t.max_action⟩

/-- Polyak update of the critic's parameters. -/
noncomputable def Critic.polyak (tau : ℝ) (c t : Critic) : Critic :=
  ⟨Linear.polyak tau c.fcn_1 t.fcn_1, Linear.polyak tau c.fcn_2 t.fcn_2,
   Linear.polyak tau c.l1 t.l1, LinearR.polyak tau c.l2 t.l2,
   Linear.polyak tau c.l3 t.l3, LinearR.polyak tau c.l4 t.l4⟩

/-- The tensors yielded by `Linear.parameters()`: the weight matrix and the
bias vector, the matrix flattened to a single list. -/
def Linear.params (l : Linear) : List Vec := [l.w.flatten, l.b]

/-- The tensors yielded by the single-output layer. -/
def LinearR.params (l : LinearR) : List Vec := [l.w, [l.b]]

/-- `Actor.parameters()` in module registration order: `fcn`, `l1`, `l2`. -/
def Actor.parameters (a : Actor) : List Vec :=
  a.fcn.params ++ a.l1.params ++ a.l2.params

/-- `Critic.parameters()` in module registration order: `fcn_1`, `fcn_2`,
`l1`, `l2`, `l3`, `l4`. -/
def Critic.parameters (c : Critic) : List Vec :=
  c.fcn_1.params ++ c.fcn_2.params ++ c.l1.params ++ c.l2.params ++
    c.l3.params ++ c.l4.params

/-! ### Replay batches and randomness -/

/-- One sampled transition row of `replay_buffer.sample(batch_size)`. -/
structure Row where
  state : Vec
  action : Vec
  next_state : Vec
  reward : ℝ
  not_done : ℝ

/-- A sampled batch. -/
abbrev Batch := List Row

/-! ### The TD3 agent -/

/-- Mutable state of a `TD3` object (non-image configuration). -/
structure TD3State where
  actor : Actor
  actor_target : Actor
  actor_opt : OptSt
  critic : Critic
  critic_target : Critic
  critic_opt : OptSt
  max_action : ℝ
  discount : ℝ
  tau : ℝ
  policy_noise : ℝ
  noise_clip : ℝ
  policy_freq : ℕ
  total_it : ℕ

/-- The external framework (torch autograd and `torch.optim.Adam`): the
result of `zero_grad(); loss.backward(); step()` on each optimizer, an
unspecified function of the data the loss is built from. -/
structure TorchTD3 where
  criticStep : Critic → OptSt → Batch → List ℝ → ℝ → Critic × OptSt
  actorStep : Actor → OptSt → Critic → Batch → ℝ → Actor × OptSt

namespace TD3

/-- The clipped exploration noise of `TD3.train`:
`(torch.randn_like(action) * policy_noise).clamp(-noise_clip, noise_clip)`,
with the raw normal draw `nr` supplied externally (one row per batch row). -/
noncomputable def noiseOf (s : TD3State) (nr : List Vec) : List Vec :=
  nr.map (fun v => v.map (fun x => clampS (-s.noise_clip) s.noise_clip (x * s.policy_noise)))

/-- The next action of `TD3.train`:
`(actor_target(next_state) + noise).clamp(-max_action, max_action)`. -/
noncomputable def nextActionOf (s : TD3State) (batch : Batch) (nr : List Vec) : List Vec :=
  (batch.zip (noiseOf s nr)).map (fun p =>
    clampV (-s.max_action) s.max_action
      (List.zipWith (· + ·) (s.actor_target.forward p.1.next_state) p.2))

/-- The critic target of `TD3.train`:
`reward + not_done * discount * min(target_Q1, target_Q2)` with both target
Q values taken from `critic_target(next_state, next_action)`. -/
noncomputable def targetQOf (s : TD3State) (batch : Batch) (nr : List Vec) : List ℝ :=
  (batch.zip (nextActionOf s batch nr)).map (fun p =>
    let tq := s.critic_target.forward p.1.next_state p.2
    p.1.reward + p.1.not_done * s.discount * min tq.1 tq.2)

/-- The critic loss of `TD3.train`:
`F.mse_loss(current_Q1, target_Q) + F.mse_loss(current_Q2, target_Q)`. -/
noncomputable def criticLossOf (s : TD3State) (batch : Batch) (nr : List Vec) : ℝ :=
  let tq := targetQOf s batch nr
  mse (batch.map (fun r => (s.critic.forward r.state r.action).1)) tq +
    mse (batch.map (fun r => (s.critic.forward r.state r.action).2)) tq

/-- The actor loss of `TD3.train`: `-critic.Q1(state, actor(state)).mean()`,
evaluated with the already-updated critic. -/
noncomputable def actorLossOf (c : Critic) (a : Actor) (batch : Batch) : ℝ :=
  -meanL (batch.map (fun r => c.Q1 r.state (a.forward r.state)))

/-- `TD3.train(replay_buffer, batch_size)`: increment `total_it`, build the
double-Q target, run the critic optimizer step, and on every
`policy_freq`-th call run the actor optimizer step followed by the Polyak
updates of both target networks (critic target from the updated critic,
actor target from the updated actor). -/
noncomputable def train (o : TorchTD3) (batch : Batch) (nr : List Vec)
    (s : TD3State) : TD3State :=
  let total_it := s.total_it + 1
  let tq := targetQOf s batch nr
  let cs := o.criticStep s.critic s.critic_opt batch tq (criticLossOf s batch nr)
  if total_it % s.policy_freq = 0 then
    let as := o.actorStep s.actor s.actor_opt cs.1 batch (actorLossOf cs.1 s.actor batch)
    { s with total_it := total_it, critic := cs.1, critic_opt := cs.2,
             actor := as.1, actor_opt := as.2,
             critic_target := Critic.polyak s.tau cs.1 s.critic_target,
             actor_target := Actor.polyak s.tau as.1 s.actor_target }
  else
    { s with total_it := total_it, critic := cs.1, critic_opt := cs.2 }

/-- `TD3.select_action(state)` (non-image branch): flatten the state and
run the actor. -/
noncomputable def select_action (s : TD3State) (state : Vec) : Vec :=
  s.actor.forward state

end TD3

/-! ### Python dynamic errors

bcq.py instantiates the `Actor` and `Critic` classes defined at the top of
that file (identical to the td3.py classes), yet calls them through the
interface of the original BCQ networks: the actor is called with two
positional tensors and the critic through an attribute `q1`.  Both are
dynamic errors in Python, modelled here explicitly. -/

/-- Python exception kinds raised by the code under verification. -/
inductive PyErr
  | typeError
  | attributeError
  | fileNotFound
  | runtimeError
deriving DecidableEq, Repr

/-- Python positional-argument binding for `Actor.forward(self, state)` on a
batch: the method accepts exactly one tensor argument; a call with any other
number of positional arguments raises `TypeError`. -/
noncomputable def Actor.callB (a : Actor) (args : List (List Vec)) :
    Except PyErr (List Vec) :=
  match args with
  | [sb] => .ok (sb.map a.forward)
  | _ => .error .typeError

/-- Python attribute lookup `critic.q1`: the `Critic` class defines `Q1`
(capital Q) and registers no parameter, buffer or submodule named `q1`, so
the lookup raises `AttributeError`. -/
def Critic.q1attr (_c : Critic) : Except PyErr (Vec → Vec → ℝ) :=
  .error .attributeError

/-- Index of the first maximal element, `tensor.argmax(0)`. -/
noncomputable def argmax0 (l : List ℝ) : ℕ :=
  (l.foldl (fun acc x =>
      if acc.2.1 < x then (acc.1 + 1, x, acc.1 + 1) else (acc.1 + 1, acc.2.1, acc.2.2))
    (0, l.headD 0, 0)).2.2

/-- Consecutive chunks of size `n` of a list (`tensor.reshape(k, n)`). -/
def chunksOf (n : ℕ) : List α → List (List α)
  | [] => []
  | x :: xs =>
    if _h : n = 0 then []
    else (x :: xs).take n :: chunksOf n ((x :: xs).drop n)
termination_by l => l.length
decreasing_by
  simp only [List.length_drop, List.length_cons]
  omega

/-! ### The BCQ agent -/

/-- Mutable state of a `BCQ` object (non-image configuration).  The `phi`
hyperparameter is accepted by `__init__` and stored nowhere; the actor and
critic are the td3-style classes defined in bcq.py itself. -/
structure BCQState where
  actor : Actor
  actor_target : Actor
  actor_opt : OptSt
  critic : Critic
  critic_target : Critic
  critic_opt : OptSt
  vae : VAE
  vae_opt : OptSt
  max_action : ℝ
  action_dim : ℕ
  discount : ℝ
  tau : ℝ
  lmbda : ℝ
  policy_noise : ℝ
  noise_clip : ℝ
  policy_freq : ℕ
  total_it : ℕ

/-- External randomness consumed by one BCQ training iteration: the VAE
reparameterization draw, the latent draws for `vae.decode` on the
10-fold-duplicated next states, and the latent draws for `vae.decode` on the
states of the perturbation-model update. -/
structure Rand where
  vaeEps : List Vec
  zTarget : List Vec
  zActor : List Vec

/-- The external framework for BCQ training: the three Adam steps. -/
structure TorchBCQ where
  vaeStep : VAE → OptSt → Batch → List Vec → ℝ → VAE × OptSt
  criticStep : Critic → OptSt → Batch → List ℝ → Critic × OptSt
  actorStep : Actor → OptSt → List Vec → Actor × OptSt

namespace BCQ

/-- `BCQ.select_action(state)`: repeat the state 100 times, decode one VAE
action per copy, call the actor on (states, decoded actions), score the
candidates with `critic.q1` and return the argmax candidate.  The actor call
passes two positional tensors to `Actor.forward(self, state)`. -/
noncomputable def select_action (s : BCQState) (state : Vec) (zr : List Vec) :
    Except PyErr Vec := do
  let states := List.replicate 100 state
  let decoded := (states.zip zr).map (fun p => s.vae.decodeSampled p.1 p.2)
  let actions ← s.actor.callB [states, decoded]
  let q1f ← s.critic.q1attr
  let q1 := (states.zip actions).map (fun p => q1f p.1 p.2)
  let ind := argmax0 q1
  pure (actions.getD ind [])

/-- The VAE loss of one BCQ iteration: `recon_loss + 0.5 * KL_loss`, with
`recon_loss = F.mse_loss(recon, action)` and
`KL_loss = -0.5 * (1 + log(std^2) - mean^2 - std^2).mean()`. -/
noncomputable def vaeLossOf (s : BCQState) (batch : Batch) (eps : List Vec) : ℝ :=
  let outs := (batch.zip eps).map (fun p => s.vae.forward p.1.state p.1.action p.2)
  let recon_loss := mse (outs.map (fun o => o.1)).flatten (batch.map Row.action).flatten
  let kl_terms :=
    (outs.map (fun o =>
      List.zipWith (fun m sd => 1 + Real.log (sd ^ 2) - m ^ 2 - sd ^ 2) o.2.1 o.2.2)).flatten
  let KL_loss := -(1 / 2) * meanL kl_terms
  recon_loss + (1 / 2) * KL_loss

/-- The critic-target computation of `BCQ.train`: duplicate each next state
10 times, decode a VAE action for each copy, call
`actor_target(next_state, decoded)` (two positional tensors), evaluate the
twin target critics, soft-clip with `lmbda`, take the per-state maximum over
the 10 candidates and form `reward + not_done * discount * max`. -/
noncomputable def targetQcomp (s : BCQState) (batch : Batch) (zr : List Vec) :
    Except PyErr (List ℝ) := do
  let ns10 := (batch.map Row.next_state).flatMap (List.replicate 10)
  let decoded := (ns10.zip zr).map (fun p => s.vae.decodeSampled p.1 p.2)
  let acts ← s.actor_target.callB [ns10, decoded]
  let qs := (ns10.zip acts).map (fun p => s.critic_target.forward p.1 p.2)
  let soft := qs.map (fun q => s.lmbda * min q.1 q.2 + (1 - s.lmbda) * max q.1 q.2)
  let maxed := (chunksOf 10 soft).map (fun c => c.foldl max (c.headD 0))
  pure ((batch.zip maxed).map (fun p => p.1.reward + p.1.not_done * s.discount * p.2))

/-- One iteration of the `BCQ.train` loop body, returning the object state
reached together with the exception that aborted the iteration, if any.
The VAE update runs first; the critic-target computation then calls the
actor target with two positional tensors and raises. -/
noncomputable def trainStep (o : TorchBCQ) (batch : Batch) (r : Rand)
    (s : BCQState) : BCQState × Option PyErr :=
  let vs := o.vaeStep s.vae s.vae_opt batch r.vaeEps (vaeLossOf s batch r.vaeEps)
  let s1 := { s with vae := vs.1, vae_opt := vs.2 }
  match targetQcomp s1 batch r.zTarget with
  | .error e => (s1, some e)
  | .ok tq =>
    let cs := o.criticStep s1.critic s1.critic_opt batch tq
    let s2 := { s1 with critic := cs.1, critic_opt := cs.2 }
    let sampled := (batch.zip r.zActor).map (fun p => s2.vae.decodeSampled p.1.state p.2)
    match s2.actor.callB [batch.map Row.state, sampled] with
    | .error e => (s2, some e)
    | .ok perturbed =>
      match s2.critic.q1attr with
      | .error e => (s2, some e)
      | .ok _q1f =>
        let as := o.actorStep s2.actor s2.actor_opt perturbed
        let s3 := { s2 with actor := as.1, actor_opt := as.2 }
        ({ s3 with critic_target := Critic.polyak s3.tau s3.critic s3.critic_target,
                   actor_target := Actor.polyak s3.tau s3.actor s3.actor_target },
         none)

/-- `BCQ.train(replay_buffer, iterations, batch_size)`: run the loop body
once per supplied batch; a Python exception propagates out of the loop,
leaving the object in the state reached so far. -/
noncomputable def train (o : TorchBCQ) : List (Batch × Rand) → BCQState →
    BCQState × Option PyErr
  | [], s => (s, none)
  | br :: rest, s =>
    match trainStep o br.1 br.2 s with
    | (s1, some e) => (s1, some e)
    | (s1, none) => train o rest s1

end BCQ

/-! ### Persistence

`torch.save(obj.state_dict(), name)` serializes the parameter dictionary
with the framework's native format; `torch.load` returns an equal
dictionary.  The file system is a name-to-blob map built from the writes. -/

/-- The `state_dict()` of an `Actor`: its registered parameters.  The plain
python attribute `max_action` is not a parameter and is not saved. -/
structure ActorSD where
  fcn : Linear
  l1 : Linear
  l2 : Linear

/-- `Actor.state_dict()`. -/
def Actor.state_dict (a : Actor) : ActorSD := ⟨a.fcn, a.l1, a.l2⟩

/-- `Actor.load_state_dict(sd)`: copy the saved parameters in; non-parameter
attributes of the receiving module are untouched. -/
def Actor.load_state_dict (a : Actor) (sd : ActorSD) : Actor :=
  { fcn := sd.fcn, l1 := sd.l1, l2 := sd.l2, max_action := a.max_action }

/-- A serialized object written by `torch.save`.  Every field of the
embedded `Critic` is a registered parameter, so its state dict is the
record itself.  The `vaeSD` case exists because `torch.save` could persist
a VAE state dict; no `save` method of this repository ever produces one. -/
inductive Blob
  | actorSD (sd : ActorSD)
  | criticSD (c : Critic)
  | optSD (o : OptSt)
  | vaeSD (v : VAE)

/-- Lookup of a filename in the list of (filename, blob) writes. -/
def lookupW : List (String × Blob) → String → Option Blob
  | [], _ => none
  | nb :: rest, k => if nb.1 = k then some nb.2 else lookupW rest k

/-- `torch.load(name)`: read the blob back, raising if the file is
missing. -/
def torchLoad (fs : String → Option Blob) (n : String) : Except PyErr Blob :=
  match fs n with
  | some b => .ok b
  | none => .error .fileNotFound

/-- Interpretation of a loaded blob as a critic state dict;
`load_state_dict` raises on a mismatched dictionary. -/
def Blob.asCritic : Blob → Except PyErr Critic
  | .criticSD c => .ok c
  | _ => .error .runtimeError

/-- Interpretation of a loaded blob as an actor state dict. -/
def Blob.asActor : Blob → Except PyErr ActorSD
  | .actorSD sd => .ok sd
  | _ => .error .runtimeError

/-- Interpretation of a loaded blob as an optimizer state dict. -/
def Blob.asOpt : Blob → Except PyErr OptSt
  | .optSD o => .ok o
  | _ => .error .runtimeError

namespace TD3

/-- `TD3.save(filename)`: write the critic, critic optimizer, actor and
actor optimizer state dicts under the four suffixed names (the method also
prints a line to stdout); the second component is the object state after
the call, which `save` does not modify. -/
def save (fn : String) (s : TD3State) : List (String × Blob) × TD3State :=
  ([(fn ++ "_critic", .criticSD s.critic),
    (fn ++ "_critic_optimizer", .optSD s.critic_opt),
    (fn ++ "_actor", .actorSD s.actor.state_dict),
    (fn ++ "_actor_optimizer", .optSD s.actor_opt)], s)

/-- `TD3.load(filename)`: load the critic and its optimizer, rebuild the
critic target as a deep copy of the loaded critic, then the same for the
actor; a raised exception propagates. -/
def load (fn : String) (fs : String → Option Blob) (s : TD3State) :
    Except PyErr TD3State :=
  match torchLoad fs (fn ++ "_critic") with
  | .error e => .error e
  | .ok cb =>
  match cb.asCritic with
  | .error e => .error e
  | .ok c =>
  match torchLoad fs (fn ++ "_critic_optimizer") with
  | .error e => .error e
  | .ok cob =>
  match cob.asOpt with
  | .error e => .error e
  | .ok co =>
    let s1 := { s with critic := c, critic_opt := co }
    let s2 := { s1 with critic_target := s1.critic }
    match torchLoad fs (fn ++ "_actor") with
    | .error e => .error e
    | .ok ab =>
    match ab.asActor with
    | .error e => .error e
    | .ok asd =>
    match torchLoad fs (fn ++ "_actor_optimizer") with
    | .error e => .error e
    | .ok aob =>
    match aob.asOpt with
    | .error e => .error e
    | .ok ao =>
      let s3 := { s2 with actor := s2.actor.load_state_dict asd, actor_opt := ao }
      .ok { s3 with actor_target := s3.actor }

end TD3

namespace BCQ

/-- `BCQ.save(filename)`: identical writes to `TD3.save` — the VAE and its
optimizer are not written. -/
def save (fn : String) (s : BCQState) : List (String × Blob) × BCQState :=
  ([(fn ++ "_critic", .criticSD s.critic),
    (fn ++ "_critic_optimizer", .optSD s.critic_opt),
    (fn ++ "_actor", .actorSD s.actor.state_dict),
    (fn ++ "_actor_optimizer", .optSD s.actor_opt)], s)

/-- `BCQ.load(filename)`: identical restore discipline to `TD3.load`; the
VAE and its optimizer are left as they are. -/
def load (fn : String) (fs : String → Option Blob) (s : BCQState) :
    Except PyErr BCQState :=
  match torchLoad fs (fn ++ "_critic") with
  | .error e => .error e
  | .ok cb =>
  match cb.asCritic with
  | .error e => .error e
  | .ok c =>
  match torchLoad fs (fn ++ "_critic_optimizer") with
  | .error e => .error e
  | .ok cob =>
  match cob.asOpt with
  | .error e => .error e
  | .ok co =>
    let s1 := { s with critic := c, critic_opt := co }
    let s2 := { s1 with critic_target := s1.critic }
    match torchLoad fs (fn ++ "_actor") with
    | .error e => .error e
    | .ok ab =>
    match ab.asActor with
    | .error e => .error e
    | .ok asd =>
    match torchLoad fs (fn ++ "_actor_optimizer") with
    | .error e => .error e
    | .ok aob =>
    match aob.asOpt with
    | .error e => .error e
    | .ok ao =>
      let s3 := { s2 with actor := s2.actor.load_state_dict asd, actor_opt := ao }
      .ok { s3 with actor_target := s3.actor }

end BCQ

/-! ### Shape predicates

`copy_` inside the Polyak loop pairs whole tensors; restating the structural
update as an in-order pairing over `parameters()` needs the weight matrices
of a network and its target to have equal row shapes, which holds for any
online/target pair of the same architecture. -/

/-- The two weight matrices have the same row lengths. -/
def Linear.wShape (l t : Linear) : Prop := l.w.map List.length = t.w.map List.length

/-- Shape agreement of the weight matrices of two actors. -/
def Actor.wShape (a t : Actor) : Prop :=
  a.fcn.wShape t.fcn ∧ a.l1.wShape t.l1 ∧ a.l2.wShape t.l2

/-- Shape agreement of the weight matrices of two critics. -/
def Critic.wShape (c ct : Critic) : Prop :=
  c.fcn_1.wShape ct.fcn_1 ∧ c.fcn_2.wShape ct.fcn_2 ∧
    c.l1.wShape ct.l1 ∧ c.l3.wShape ct.l3

/-! ### Concrete miniature agents

Tiny one-dimensional networks used to instantiate the theorems on concrete
inputs. -/

/-- A one-by-one linear layer with weight `1` and bias `0`. -/
noncomputable def lin1 : Linear := ⟨[[1]], [0]⟩

/-- A single-output head with weight `0` and bias `0`. -/
noncomputable def linR0 : LinearR := ⟨[0], 0⟩

/-- A single-output head with weight `0` and bias `1`. -/
noncomputable def linR1 : LinearR := ⟨[0], 1⟩

/-- A miniature actor with `max_action = 1`. -/
noncomputable def actor0 : Actor := ⟨lin1, lin1, lin1, 1⟩

/-- A miniature online critic whose `l4` bias is `1`. -/
noncomputable def critic0 : Critic := ⟨lin1, lin1, lin1, linR1, lin1, linR1⟩

/-- A miniature target critic whose `l4` bias is `0`. -/
noncomputable def criticT0 : Critic := ⟨lin1, lin1, lin1, linR0, lin1, linR0⟩

/-- A miniature VAE with `max_action = 1`. -/
noncomputable def vae0 : VAE := ⟨lin1, lin1, lin1, lin1, lin1, lin1, lin1, 1, 2⟩

/-- A miniature TD3 agent state with `tau = 1/2` and `policy_freq = 2`. -/
noncomputable def td30 : TD3State :=
  { actor := actor0, actor_target := actor0, actor_opt := [],
    critic := critic0, critic_target := criticT0, critic_opt := [],
    max_action := 1, discount := 99 / 100, tau := 1 / 2,
    policy_noise := 1 / 5, noise_clip := 1 / 2, policy_freq := 2, total_it := 0 }

/-- A miniature BCQ agent state with `tau = 1/2`. -/
noncomputable def bcq0 : BCQState :=
  { actor := actor0, actor_target := actor0, actor_opt := [],
    critic := critic0, critic_target := criticT0, critic_opt := [],
    vae := vae0, vae_opt := [],
    max_action := 1, action_dim := 1, discount := 99 / 100, tau := 1 / 2,
    lmbda := 3 / 4, policy_noise := 1 / 5, noise_clip := 1 / 2,
    policy_freq := 2, total_it := 0 }

/-- A framework oracle whose optimizer steps change nothing. -/
noncomputable def oB0 : TorchBCQ :=
  ⟨fun v o _ _ _ => (v, o), fun c o _ _ => (c, o), fun a o _ => (a, o)⟩

/-- An empty batch. -/
def batch0 : Batch := []

/-- Empty randomness. -/
def rand0 : Rand := ⟨[], [], []⟩

/-- The expected result of loading the miniature TD3 agent's own save. -/
noncomputable def td3Loaded : TD3State :=
  { td30 with critic_target := critic0, actor_target := actor0 }

/-! ### Helper lemmas -/

/-- The hyperbolic tangent is at most `1`. -/
lemma tanh_le_one (x : ℝ) : Real.tanh x ≤ 1 := by
  rw [Real.tanh_eq_sinh_div_cosh]
  exact (div_le_one (Real.cosh_pos x)).mpr (Real.sinh_lt_cosh x).le

/-- The hyperbolic tangent is at least `-1`. -/
lemma neg_one_le_tanh (x : ℝ) : -1 ≤ Real.tanh x := by
  rw [Real.tanh_eq_sinh_div_cosh]
  have h := Real.sinh_lt_cosh (-x)
  rw [Real.sinh_neg, Real.cosh_neg] at h
  rw [le_div_iff₀ (Real.cosh_pos x)]
  linarith

/-- A scaled tanh value lies in `[-m, m]` for `m ≥ 0`. -/
lemma scaled_tanh_mem (m x : ℝ) (hm : 0 ≤ m) :
    -m ≤ m * Real.tanh x ∧ m * Real.tanh x ≤ m := by
  constructor
  · have := mul_le_mul_of_nonneg_left (neg_one_le_tanh x) hm
    simpa using this
  · have := mul_le_mul_of_nonneg_left (tanh_le_one x) hm
    simpa using this

/-- A list of scaled tanh values is bounded within `[-m, m]` for `m ≥ 0`. -/
lemma bddWithin_map_scaled_tanh {m : ℝ} (hm : 0 ≤ m) (l : Vec) :
    BddWithin m (l.map (fun y => m * Real.tanh y)) := by
  intro x hx
  rcases List.mem_map.mp hx with ⟨y, _, rfl⟩
  exact scaled_tanh_mem m y hm

/-- Flattening commutes with the matrix-level Polyak combination when the
row shapes agree. -/
lemma flatten_polyakM (tau : ℝ) :
    ∀ p tp : List Vec, p.map List.length = tp.map List.length →
      (polyakM tau p tp).flatten = polyakV tau p.flatten tp.flatten := by
  intro p
  induction p with
  | nil =>
    intro tp h
    have : tp = [] := by
      cases tp with
      | nil => rfl
      | cons y ys => simp at h
    subst this
    rfl
  | cons x xs ih =>
    intro tp h
    cases tp with
    | nil => simp at h
    | cons y ys =>
      simp only [List.map_cons, List.cons.injEq] at h
      simp only [polyakM, List.zipWith_cons_cons, List.flatten_cons]
      have hz := List.zipWith_append
        (fun u w => tau * u + (1 - tau) * w) x xs.flatten y ys.flatten h.1
      have hih : (List.zipWith (polyakV tau) xs ys).flatten =
          polyakV tau xs.flatten ys.flatten := ih ys h.2
      rw [hih]
      simp only [polyakV]
      exact hz.symm

/-- In-order `parameters()` pairing of the Polyak update of a linear
layer. -/
lemma linearParamsPolyak (tau : ℝ) (l t : Linear) (h : l.wShape t) :
    (Linear.polyak tau l t).params =
      List.zipWith (polyakV tau) l.params t.params := by
  simp only [Linear.params, Linear.polyak, List.zipWith_cons_cons, List.zipWith_nil_right]
  rw [flatten_polyakM tau l.w t.w h]

/-- In-order `parameters()` pairing of the Polyak update of a single-output
layer. -/
lemma linearRParamsPolyak (tau : ℝ) (l t : LinearR) :
    (LinearR.polyak tau l t).params =
      List.zipWith (polyakV tau) l.params t.params := rfl

/-- The structural Polyak update of an actor equals the in-order pairing of
`parameters()` with the elementwise rule, for shape-matching networks. -/
lemma actorParametersPolyak (tau : ℝ) (a t : Actor) (h : a.wShape t) :
    (Actor.polyak tau a t).parameters =
      List.zipWith (polyakV tau) a.parameters t.parameters := by
  obtain ⟨h1, h2, h3⟩ := h
  simp only [Actor.parameters, Actor.polyak]
  rw [List.zipWith_append _ _ _ _ _ (by simp [Linear.params]),
      List.zipWith_append _ _ _ _ _ (by simp [Linear.params])]
  rw [linearParamsPolyak tau _ _ h1, linearParamsPolyak tau _ _ h2,
      linearParamsPolyak tau _ _ h3]

/-- The structural Polyak update of a critic equals the in-order pairing of
`parameters()` with the elementwise rule, for shape-matching networks. -/
lemma criticParametersPolyak (tau : ℝ) (c ct : Critic) (h : c.wShape ct) :
    (Critic.polyak tau c ct).parameters =
      List.zipWith (polyakV tau) c.parameters ct.parameters := by
  obtain ⟨h1, h2, h3, h4⟩ := h
  simp only [Critic.parameters, Critic.polyak]
  rw [List.zipWith_append _ _ _ _ _ (by simp [Linear.params, LinearR.params]),
      List.zipWith_append _ _ _ _ _ (by simp [Linear.params, LinearR.params]),
      List.zipWith_append _ _ _ _ _ (by simp [Linear.params, LinearR.params]),
      List.zipWith_append _ _ _ _ _ (by simp [Linear.params, LinearR.params]),
      List.zipWith_append _ _ _ _ _ (by simp [Linear.params, LinearR.params])]
  rw [linearParamsPolyak tau _ _ h1, linearParamsPolyak tau _ _ h2,
      linearParamsPolyak tau _ _ h3, linearParamsPolyak tau _ _ h4,
      linearRParamsPolyak tau c.l2 ct.l2, linearRParamsPolyak tau c.l4 ct.l4]

/-- Distinct suffixes of distinct lengths give distinct filenames under a
common caller-supplied name. -/
lemma append_ne_of_length_ne (fn : String) {a b : String}
    (h : a.length ≠ b.length) : fn ++ a ≠ fn ++ b := by
  intro hc
  have h2 := congrArg String.length hc
  rw [String.length_append, String.length_append] at h2
  exact h (Nat.add_left_cancel h2)

/-! ### Claim theorems -/

/-- C1: on every `TD3.train` call the iteration counter is incremented and
the critic is updated (by the framework's optimizer step on the critic
loss), while the actor, the actor target and the critic target take their
updated values exactly when the incremented counter `total_it` is a
multiple of `policy_freq`, and are left unchanged on all other calls. -/
theorem td3_delayed_policy_updates (o : TorchTD3) (batch : Batch)
    (nr : List Vec) (s : TD3State) :
    (TD3.train o batch nr s).total_it = s.total_it + 1 ∧
    (TD3.train o batch nr s).critic =
      (o.criticStep s.critic s.critic_opt batch (TD3.targetQOf s batch nr)
        (TD3.criticLossOf s batch nr)).1 ∧
    (TD3.train o batch nr s).actor =
      (if s.policy_freq ∣ s.total_it + 1 then
        (o.actorStep s.actor s.actor_opt (TD3.train o batch nr s).critic batch
          (TD3.actorLossOf (TD3.train o batch nr s).critic s.actor batch)).1
       else s.actor) ∧
    (TD3.train o batch nr s).actor_target =
      (if s.policy_freq ∣ s.total_it + 1 then
        Actor.polyak s.tau (TD3.train o batch nr s).actor s.actor_target
       else s.actor_target) ∧
    (TD3.train o batch nr s).critic_target =
      (if s.policy_freq ∣ s.total_it + 1 then
        Critic.polyak s.tau (TD3.train o batch nr s).critic s.critic_target
       else s.critic_target) := by
  by_cases h : (s.total_it + 1) % s.policy_freq = 0
  · have hd : s.policy_freq ∣ s.total_it + 1 := Nat.dvd_of_mod_eq_zero h
    simp [TD3.train, if_pos h, if_pos hd]
  · have hd : ¬ s.policy_freq ∣ s.total_it + 1 := fun hc => h (Nat.mod_eq_zero_of_dvd hc)
    simp [TD3.train, if_neg h, if_neg hd]

/-- C2: in every `TD3.train` step the critic target equals
`reward + not_done * discount * min(target_Q1, target_Q2)` rowwise, the next
action is the target actor's output on the next state plus the
`policy_noise`-scaled normal draw clamped to `[-noise_clip, noise_clip]`,
the sum clamped to `[-max_action, max_action]`, and the critic loss is the
sum of the mean squared errors of the two current Q estimates against this
common target. -/
theorem td3_double_q_target (s : TD3State) (batch : Batch) (nr : List Vec) :
    TD3.targetQOf s batch nr =
      (batch.zip (TD3.nextActionOf s batch nr)).map (fun p =>
        p.1.reward + p.1.not_done * s.discount *
          min (s.critic_target.forward p.1.next_state p.2).1
              (s.critic_target.forward p.1.next_state p.2).2) ∧
    TD3.nextActionOf s batch nr =
      (batch.zip (nr.map (fun v => v.map (fun x =>
          clampS (-s.noise_clip) s.noise_clip (x * s.policy_noise))))).map (fun p =>
        clampV (-s.max_action) s.max_action
          (List.zipWith (· + ·) (s.actor_target.forward p.1.next_state) p.2)) ∧
    TD3.criticLossOf s batch nr =
      mse (batch.map (fun r => (s.critic.forward r.state r.action).1))
          (TD3.targetQOf s batch nr) +
      mse (batch.map (fun r => (s.critic.forward r.state r.action).2))
          (TD3.targetQOf s batch nr) :=
  ⟨rfl, rfl, rfl⟩

/-- C3: `BCQ.select_action` does not return a VAE-derived candidate: the
call `self.actor(state, self.vae.decode(state))` passes two positional
tensors to `Actor.forward(self, state)` of bcq.py, so every invocation
raises `TypeError` (and the later `self.critic.q1` would raise
`AttributeError`, the class defining only `Q1`). -/
theorem bcq_select_action_raises (s : BCQState) (state : Vec) (zr : List Vec) :
    BCQ.select_action s state zr = .error PyErr.typeError := rfl

/-- C4: the critic-target computation of `BCQ.train` never produces the
soft-clipped double-Q target: the call
`self.actor_target(next_state, self.vae.decode(next_state))` passes two
positional tensors to `Actor.forward(self, state)` and raises `TypeError`
before any target value is formed. -/
theorem bcq_critic_target_raises (s : BCQState) (batch : Batch) (zr : List Vec) :
    BCQ.targetQcomp s batch zr = .error PyErr.typeError := rfl

/-- C8: a `BCQ.train` call with at least one iteration does not run the
iteration to completion: the first iteration performs the VAE update and
then raises `TypeError` inside the critic-target computation, so the loop
aborts with only the VAE and its optimizer modified — the critic, actor and
target-network updates of that iteration and all later iterations never
execute. -/
theorem bcq_train_aborts_first_iteration (o : TorchBCQ) (batch : Batch)
    (r : Rand) (rest : List (Batch × Rand)) (s : BCQState) :
    BCQ.train o ((batch, r) :: rest) s =
      ({ s with
          vae := (o.vaeStep s.vae s.vae_opt batch r.vaeEps
                    (BCQ.vaeLossOf s batch r.vaeEps)).1,
          vae_opt := (o.vaeStep s.vae s.vae_opt batch r.vaeEps
                    (BCQ.vaeLossOf s batch r.vaeEps)).2 },
       some PyErr.typeError) := rfl

/-- C5 (amended): whenever a target network is updated during training —
which happens exactly on every `policy_freq`-th `TD3.train` call — each of
its parameters is replaced by `tau * param + (1 - tau) * target_param`,
pairing the parameters of the online network with those of its target in
order, and no other update rule is applied to a target network;
`BCQ.train`'s identically-written Polyak statements are unreachable because
every iteration raises `TypeError` earlier, so its target networks are
never modified. -/
theorem polyak_target_update_discipline (tau : ℝ) (a t : Actor)
    (c ct : Critic) (hA : a.wShape t) (hC : c.wShape ct) :
    (Actor.polyak tau a t).parameters =
        List.zipWith (polyakV tau) a.parameters t.parameters ∧
    (Critic.polyak tau c ct).parameters =
        List.zipWith (polyakV tau) c.parameters ct.parameters ∧
    (∀ (o : TorchTD3) (batch : Batch) (nr : List Vec) (s : TD3State),
        ((TD3.train o batch nr s).critic_target = s.critic_target ∨
         (TD3.train o batch nr s).critic_target =
           Critic.polyak s.tau (TD3.train o batch nr s).critic s.critic_target) ∧
        ((TD3.train o batch nr s).actor_target = s.actor_target ∨
         (TD3.train o batch nr s).actor_target =
           Actor.polyak s.tau (TD3.train o batch nr s).actor s.actor_target)) ∧
    (∀ (o : TorchBCQ) (batch : Batch) (r : Rand) (s : BCQState),
        (BCQ.trainStep o batch r s).1.critic_target = s.critic_target ∧
        (BCQ.trainStep o batch r s).1.actor_target = s.actor_target) := by
  refine ⟨actorParametersPolyak tau a t hA,
          criticParametersPolyak tau c ct hC, ?_, ?_⟩
  · intro o batch nr s
    by_cases h : (s.total_it + 1) % s.policy_freq = 0
    · exact ⟨Or.inr (by simp [TD3.train, if_pos h]),
             Or.inr (by simp [TD3.train, if_pos h])⟩
    · exact ⟨Or.inl (by simp [TD3.train, if_neg h]),
             Or.inl (by simp [TD3.train, if_neg h])⟩
  · intro o batch r s
    exact ⟨rfl, rfl⟩

/-- Witness for C5: the shape hypotheses hold for the miniature networks
and the pairing theorem applies to them. -/
theorem polyak_target_update_discipline_witness :
    (Actor.wShape actor0 actor0 ∧ Critic.wShape critic0 criticT0) ∧
    (Actor.polyak (1 / 2) actor0 actor0).parameters =
      List.zipWith (polyakV (1 / 2)) actor0.parameters actor0.parameters :=
  ⟨⟨⟨rfl, rfl, rfl⟩, ⟨rfl, rfl, rfl, rfl⟩⟩,
   (polyak_target_update_discipline (1 / 2) actor0 actor0 critic0 criticT0
     ⟨rfl, rfl, rfl⟩ ⟨rfl, rfl, rfl, rfl⟩).1⟩

/-- Counterexample for C5: after one concrete `BCQ.train` iteration the
target critic is not the Polyak combination of the online critic with the
old target — the iteration raises before reaching its target update, so
the claim that every `BCQ.train` iteration applies the Polyak rule to the
targets is false. -/
theorem bcq_polyak_counterexample :
    (BCQ.trainStep oB0 batch0 rand0 bcq0).1.critic_target ≠
      Critic.polyak bcq0.tau (BCQ.trainStep oB0 batch0 rand0 bcq0).1.critic
        bcq0.critic_target := by
  intro hc
  have hL : (BCQ.trainStep oB0 batch0 rand0 bcq0).1.critic_target = criticT0 := rfl
  have hR : (BCQ.trainStep oB0 batch0 rand0 bcq0).1.critic = critic0 := rfl
  rw [hL, hR] at hc
  have hb := congrArg (fun cr => cr.l4.b) hc
  simp only [criticT0, critic0, Critic.polyak, LinearR.polyak, linR0, linR1,
    bcq0] at hb
  norm_num at hb

/-- C6 (amended): `save(filename)` writes exactly the four files
`filename + "_critic"`, `filename + "_critic_optimizer"`,
`filename + "_actor"` and `filename + "_actor_optimizer"`, holding the
corresponding state dicts in the framework's native serialization, and
leaves the agent's in-memory state unchanged; for BCQ the VAE and its
optimizer are not persisted. -/
theorem save_writes_characterization (fn fnb : String) (s : TD3State)
    (sb : BCQState) :
    TD3.save fn s =
      ([(fn ++ "_critic", Blob.criticSD s.critic),
        (fn ++ "_critic_optimizer", Blob.optSD s.critic_opt),
        (fn ++ "_actor", Blob.actorSD s.actor.state_dict),
        (fn ++ "_actor_optimizer", Blob.optSD s.actor_opt)], s) ∧
    BCQ.save fnb sb =
      ([(fnb ++ "_critic", Blob.criticSD sb.critic),
        (fnb ++ "_critic_optimizer", Blob.optSD sb.critic_opt),
        (fnb ++ "_actor", Blob.actorSD sb.actor.state_dict),
        (fnb ++ "_actor_optimizer", Blob.optSD sb.actor_opt)], sb) :=
  ⟨rfl, rfl⟩

/-- Counterexample for C6: no write of a concrete `BCQ.save` call carries
the VAE's state, and no written filename is the `_vae` one, so the VAE and
its optimizer are not persisted. -/
theorem bcq_save_omits_vae :
    Blob.vaeSD bcq0.vae ∉ ((BCQ.save ("model") bcq0).1.map Prod.snd) ∧
    ("model" ++ "_vae") ∉ ((BCQ.save ("model") bcq0).1.map Prod.fst) := by
  constructor
  · simp [BCQ.save]
  · decide

/-- C7: loading from the file system produced by a save restores the
critic and actor parameters and both optimizer states of the saving agent
(the loading agent keeps its own non-parameter `max_action` attribute, and
its targets are re-synchronized), for TD3 and BCQ alike. -/
theorem save_load_round_trip (fn fnb : String) (s t : TD3State)
    (sb tb : BCQState) :
    TD3.load fn (lookupW (TD3.save fn s).1) t =
      .ok { t with critic := s.critic, critic_opt := s.critic_opt,
                   critic_target := s.critic,
                   actor := t.actor.load_state_dict s.actor.state_dict,
                   actor_opt := s.actor_opt,
                   actor_target := t.actor.load_state_dict s.actor.state_dict } ∧
    BCQ.load fnb (lookupW (BCQ.save fnb sb).1) tb =
      .ok { tb with critic := sb.critic, critic_opt := sb.critic_opt,
                    critic_target := sb.critic,
                    actor := tb.actor.load_state_dict sb.actor.state_dict,
                    actor_opt := sb.actor_opt,
                    actor_target := tb.actor.load_state_dict sb.actor.state_dict } := by
  constructor
  · have h12 := append_ne_of_length_ne fn
      (show ("_critic" : String).length ≠ ("_critic_optimizer" : String).length by decide)
    have h13 := append_ne_of_length_ne fn
      (show ("_critic" : String).length ≠ ("_actor" : String).length by decide)
    have h14 := append_ne_of_length_ne fn
      (show ("_critic" : String).length ≠ ("_actor_optimizer" : String).length by decide)
    have h23 := append_ne_of_length_ne fn
      (show ("_critic_optimizer" : String).length ≠ ("_actor" : String).length by decide)
    have h24 := append_ne_of_length_ne fn
      (show ("_critic_optimizer" : String).length ≠ ("_actor_optimizer" : String).length by decide)
    have h34 := append_ne_of_length_ne fn
      (show ("_actor" : String).length ≠ ("_actor_optimizer" : String).length by decide)
    simp [TD3.load, TD3.save, lookupW, torchLoad, Blob.asCritic, Blob.asOpt,
      Blob.asActor, h12, h13, h14, h23, h24, h34]
  · have h12 := append_ne_of_length_ne fnb
      (show ("_critic" : String).length ≠ ("_critic_optimizer" : String).length by decide)
    have h13 := append_ne_of_length_ne fnb
      (show ("_critic" : String).length ≠ ("_actor" : String).length by decide)
    have h14 := append_ne_of_length_ne fnb
      (show ("_critic" : String).length ≠ ("_actor_optimizer" : String).length by decide)
    have h23 := append_ne_of_length_ne fnb
      (show ("_critic_optimizer" : String).length ≠ ("_actor" : String).length by decide)
    have h24 := append_ne_of_length_ne fnb
      (show ("_critic_optimizer" : String).length ≠ ("_actor_optimizer" : String).length by decide)
    have h34 := append_ne_of_length_ne fnb
      (show ("_actor" : String).length ≠ ("_actor_optimizer" : String).length by decide)
    simp [BCQ.load, BCQ.save, lookupW, torchLoad, Blob.asCritic, Blob.asOpt,
      Blob.asActor, h12, h13, h14, h23, h24, h34]

/-- C9: assuming a nonnegative `max_action`, every component of the
output of `Actor.forward`, of `TD3.select_action` and of `VAE.decode` lies
in the closed interval `[-max_action, max_action]`, because the final
layer output passes through `tanh` and is scaled by `max_action`. -/
theorem action_bound (a : Actor) (s : TD3State) (v : VAE) (st st2 st3 z : Vec)
    (ha : 0 ≤ a.max_action) (hs : 0 ≤ s.actor.max_action)
    (hv : 0 ≤ v.max_action) :
    BddWithin a.max_action (a.forward st) ∧
    BddWithin s.actor.max_action (TD3.select_action s st2) ∧
    BddWithin v.max_action (v.decode st3 z) :=
  ⟨bddWithin_map_scaled_tanh ha _, bddWithin_map_scaled_tanh hs _,
   bddWithin_map_scaled_tanh hv _⟩

/-- Witness for C9: the bound holds for the miniature actor, agent and
VAE evaluated on concrete states. -/
theorem action_bound_witness :
    ((0 : ℝ) ≤ actor0.max_action ∧ (0 : ℝ) ≤ td30.actor.max_action ∧
      (0 : ℝ) ≤ vae0.max_action) ∧
    (BddWithin actor0.max_action (actor0.forward [0]) ∧
     BddWithin td30.actor.max_action (TD3.select_action td30 [0]) ∧
     BddWithin vae0.max_action (vae0.decode [0] [0])) := by
  have h1 : (0 : ℝ) ≤ actor0.max_action := by norm_num [actor0]
  have h2 : (0 : ℝ) ≤ td30.actor.max_action := by norm_num [td30, actor0]
  have h3 : (0 : ℝ) ≤ vae0.max_action := by norm_num [vae0]
  exact ⟨⟨h1, h2, h3⟩, action_bound actor0 td30 vae0 [0] [0] [0] [0] h1 h2 h3⟩

/-- C10: whenever `load` returns, the critic target equals the freshly
loaded critic and the actor target equals the freshly loaded actor, for
TD3 and BCQ alike; and `save` writes no file for a target network, so
targets are never restored from saved values but rebuilt by deep-copying
the loaded online networks. -/
theorem load_resyncs_targets :
    (∀ (fn : String) (fs : String → Option Blob) (t t2 : TD3State),
        TD3.load fn fs t = .ok t2 →
          t2.critic_target = t2.critic ∧ t2.actor_target = t2.actor) ∧
    (∀ (fn : String) (fs : String → Option Blob) (t t2 : BCQState),
        BCQ.load fn fs t = .ok t2 →
          t2.critic_target = t2.critic ∧ t2.actor_target = t2.actor) ∧
    (∀ (fn : String) (s : TD3State),
        lookupW (TD3.save fn s).1 (fn ++ "_critic_target") = none ∧
        lookupW (TD3.save fn s).1 (fn ++ "_actor_target") = none) ∧
    (∀ (fn : String) (s : BCQState),
        lookupW (BCQ.save fn s).1 (fn ++ "_critic_target") = none ∧
        lookupW (BCQ.save fn s).1 (fn ++ "_actor_target") = none) := by
  refine ⟨?_, ?_, ?_, ?_⟩
  · intro fn fs t t2 h
    unfold TD3.load at h
    repeat' split at h
    all_goals
      first
        | exact Except.noConfusion h
        | (rw [Except.ok.injEq] at h; subst h; exact ⟨rfl, rfl⟩)
  · intro fn fs t t2 h
    unfold BCQ.load at h
    repeat' split at h
    all_goals
      first
        | exact Except.noConfusion h
        | (rw [Except.ok.injEq] at h; subst h; exact ⟨rfl, rfl⟩)
  · intro fn s
    have g1 := append_ne_of_length_ne fn
      (show ("_critic" : String).length ≠ ("_critic_target" : String).length by decide)
    have g2 := append_ne_of_length_ne fn
      (show ("_critic_optimizer" : String).length ≠ ("_critic_target" : String).length by decide)
    have g3 := append_ne_of_length_ne fn
      (show ("_actor" : String).length ≠ ("_critic_target" : String).length by decide)
    have g4 := append_ne_of_length_ne fn
      (show ("_actor_optimizer" : String).length ≠ ("_critic_target" : String).length by decide)
    have g5 := append_ne_of_length_ne fn
      (show ("_critic" : String).length ≠ ("_actor_target" : String).length by decide)
    have g6 := append_ne_of_length_ne fn
      (show ("_critic_optimizer" : String).length ≠ ("_actor_target" : String).length by decide)
    have g7 := append_ne_of_length_ne fn
      (show ("_actor" : String).length ≠ ("_actor_target" : String).length by decide)
    have g8 := append_ne_of_length_ne fn
      (show ("_actor_optimizer" : String).length ≠ ("_actor_target" : String).length by decide)
    exact ⟨by simp [TD3.save, lookupW, g1, g2, g3, g4],
           by simp [TD3.save, lookupW, g5, g6, g7, g8]⟩
  · intro fn s
    have g1 := append_ne_of_length_ne fn
      (show ("_critic" : String).length ≠ ("_critic_target" : String).length by decide)
    have g2 := append_ne_of_length_ne fn
      (show ("_critic_optimizer" : String).length ≠ ("_critic_target" : String).length by decide)
    have g3 := append_ne_of_length_ne fn
      (show ("_actor" : String).length ≠ ("_critic_target" : String).length by decide)
    have g4 := append_ne_of_length_ne fn
      (show ("_actor_optimizer" : String).length ≠ ("_critic_target" : String).length by decide)
    have g5 := append_ne_of_length_ne fn
      (show ("_critic" : String).length ≠ ("_actor_target" : String).length by decide)
    have g6 := append_ne_of_length_ne fn
      (show ("_critic_optimizer" : String).length ≠ ("_actor_target" : String).length by decide)
    have g7 := append_ne_of_length_ne fn
      (show ("_actor" : String).length ≠ ("_actor_target" : String).length by decide)
    have g8 := append_ne_of_length_ne fn
      (show ("_actor_optimizer" : String).length ≠ ("_actor_target" : String).length by decide)
    exact ⟨by simp [BCQ.save, lookupW, g1, g2, g3, g4],
           by simp [BCQ.save, lookupW, g5, g6, g7, g8]⟩

/-- Witness for C10: a concrete successful load of the miniature TD3
agent's own save, whose targets coincide with its loaded networks. -/
theorem load_resyncs_targets_witness :
    (TD3.load ("m") (lookupW (TD3.save ("m") td30).1) td30 = .ok td3Loaded) ∧
    td3Loaded.critic_target = td3Loaded.critic ∧
    td3Loaded.actor_target = td3Loaded.actor :=
  ⟨rfl, load_resyncs_targets.1 ("m") (lookupW (TD3.save ("m") td30).1)
    td30 td3Loaded rfl⟩

end Wildfire
